import Mathlib

/-!
Verification of the Convert native library's buffer-ownership and
error-channel core, as a shallow embedding of the Rust source
(src/lib/src/memory.rs, error.rs, url.rs, hash/hash_ops.rs,
base64/bytes_ops.rs, compression/compress.rs, base64/encoding.rs).

Machine integers (usize) are modelled as Nat with explicit bounds
(2 ^ 64 on the 64-bit platform the library targets); byte-addressable
memory is a function from addresses to byte values; the allocator state
tracks the live blocks so that a dealloc with a mismatched layout is
visible as a failure (Option); raw pointers are Nat, with 0 as the null
pointer; nullable FFI arguments are Option values.  External crate
primitives (digest algorithms, the base64 engine, gzip) are parameters
of the embedded functions, since they are call-throughs, not repository
code.
-/

/-- Width of a usize value in bytes: size_of::<usize>() on the 64-bit
target platform. -/
def usizeBytes : Nat := 8

/-- Header size of an owned buffer: std::mem::size_of::<usize>() * 2,
exactly as computed in allocate_byte_array and free_bytes. -/
def headerSize : Nat := usizeBytes * 2

/-- Byte-addressable memory: every address holds a byte value. -/
def Mem : Type := Nat → Nat

/-- Model of std::ptr::copy_nonoverlapping / sequential byte stores:
the bytes bs overwrite the region starting at addr. -/
def writeBytes (m : Mem) (addr : Nat) (bs : List Nat) : Mem :=
  fun a => if addr ≤ a ∧ a - addr < bs.length then bs.getD (a - addr) 0 else m a

/-- Model of reading n consecutive bytes starting at addr. -/
def readBytes (m : Mem) (addr n : Nat) : List Nat :=
  (List.range n).map (fun i => m (addr + i))

/-- Little-endian byte decomposition of a machine word, n bytes wide
(the target platform stores usize values in little-endian order). -/
def usizeLEBytesAux : Nat → Nat → List Nat
  | 0, _ => []
  | n + 1, v => v % 256 :: usizeLEBytesAux n (v / 256)

/-- The usizeBytes-wide little-endian representation of a usize store,
as performed by the two aligned header writes in allocate_byte_array. -/
def usizeLEBytes (v : Nat) : List Nat := usizeLEBytesAux usizeBytes v

/-- Reassemble a usize value from its little-endian bytes, as performed
by the aligned header read in free_bytes. -/
def bytesToUsize (bs : List Nat) : Nat :=
  bs.foldr (fun b acc => acc * 256 + b) 0

/-- Allocator state: the byte memory together with the list of live
allocations as (base address, size) pairs.  Every allocation of this
library uses align_of::<usize>() alignment, so tracking the size alone
captures the layout that dealloc must reproduce. -/
structure AllocState where
  mem : Mem
  blocks : List (Nat × Nat)

/-- Model of allocate_byte_array (memory.rs lines 137-168): computes
data_length and total_size = header_size + data_length, obtains a fresh
block from alloc (the base address the system allocator returned is the
parameter base), writes data_length into the first header word and
total_size into the second, copies the data after the header, and
returns the pointer to the first data byte. -/
def allocate_byte_array (st : AllocState) (base : Nat) (data : List Nat) :
    AllocState × Nat :=
  let data_length := data.length
  let total_size := headerSize + data_length
  let m1 := writeBytes st.mem base (usizeLEBytes data_length)
  let m2 := writeBytes m1 (base + usizeBytes) (usizeLEBytes total_size)
  let m3 := writeBytes m2 (base + headerSize) data
  (⟨m3, (base, total_size) :: st.blocks⟩, base + headerSize)

/-- Model of std::alloc::dealloc: removing a live block whose base and
size match the layout passed to dealloc; none models the undefined
behavior of deallocating with a wrong pointer or layout. -/
def removeBlock : List (Nat × Nat) → Nat × Nat → Option (List (Nat × Nat))
  | [], _ => none
  | b :: rest, target =>
    if b = target then some rest
    else (removeBlock rest target).map (fun r => b :: r)

/-- Model of free_bytes (memory.rs lines 92-121): a null pointer is a
no-op; otherwise the header address is ptr - header_size, total_size is
read from the second header word, and the memory is released with a
layout of exactly that size. -/
def free_bytes (st : AllocState) (ptr : Nat) : Option AllocState :=
  if ptr = 0 then some st
  else
    let header_ptr := ptr - headerSize
    let total_size := bytesToUsize (readBytes st.mem (header_ptr + usizeBytes) usizeBytes)
    match removeBlock st.blocks (header_ptr, total_size) with
    | some bs => some ⟨st.mem, bs⟩
    | none => none

/-- Model of dropping a reconstructed CString: removing the live string
owned by the given pointer; none models the undefined behavior of
freeing a pointer that no live CString owns. -/
def removeString : List (Nat × String) → Nat → Option (List (Nat × String))
  | [], _ => none
  | s :: rest, p =>
    if s.fst = p then some rest
    else (removeString rest p).map (fun r => s :: r)

/-- Model of free_string (memory.rs lines 65-73): a null pointer is a
no-op; otherwise the CString is reconstructed from the pointer and
dropped. -/
def free_string (live : List (Nat × String)) (ptr : Nat) :
    Option (List (Nat × String)) :=
  if ptr = 0 then some live
  else removeString live ptr

/-- Zero-initialized memory, used as a concrete starting state. -/
def memZero : Mem := fun _ => 0

/-- An empty allocator state, used as a concrete starting state. -/
def allocInit : AllocState := ⟨memZero, []⟩

-- Basic lemmas about the byte-memory model.

theorem usizeLEBytesAux_length (n v : Nat) :
    (usizeLEBytesAux n v).length = n := by
  induction n generalizing v with
  | zero => rfl
  | succ n ih => simp [usizeLEBytesAux, ih]

theorem usizeLEBytes_length (v : Nat) : (usizeLEBytes v).length = usizeBytes :=
  usizeLEBytesAux_length usizeBytes v

theorem bytesToUsize_usizeLEBytesAux (n v : Nat) :
    bytesToUsize (usizeLEBytesAux n v) = v % 256 ^ n := by
  induction n generalizing v with
  | zero => simp [usizeLEBytesAux, bytesToUsize, Nat.mod_one]
  | succ n ih =>
    simp only [usizeLEBytesAux, bytesToUsize, List.foldr] at *
    rw [ih (v / 256)]
    rw [pow_succ, mul_comm (256 ^ n) 256, Nat.mod_mul]
    ring

theorem bytesToUsize_usizeLEBytes (v : Nat) (h : v < 2 ^ 64) :
    bytesToUsize (usizeLEBytes v) = v := by
  have h8 : (256 : Nat) ^ usizeBytes = 2 ^ 64 := by decide
  rw [usizeLEBytes, bytesToUsize_usizeLEBytesAux, h8, Nat.mod_eq_of_lt h]

theorem writeBytes_apply_out (m : Mem) (addr : Nat) (bs : List Nat) (a : Nat)
    (h : a < addr ∨ addr + bs.length ≤ a) :
    writeBytes m addr bs a = m a := by
  unfold writeBytes
  have : ¬ (addr ≤ a ∧ a - addr < bs.length) := by omega
  simp [this]

theorem readBytes_length (m : Mem) (addr n : Nat) :
    (readBytes m addr n).length = n := by
  simp [readBytes]

theorem readBytes_writeBytes_self (m : Mem) (addr : Nat) (bs : List Nat) :
    readBytes (writeBytes m addr bs) addr bs.length = bs := by
  apply List.ext_getElem
  · simp [readBytes]
  · intro i h1 h2
    simp only [readBytes, List.getElem_map, List.getElem_range]
    unfold writeBytes
    have hle : addr ≤ addr + i := Nat.le_add_right _ _
    have hsub : addr + i - addr = i := by omega
    simp only [readBytes, List.length_map, List.length_range] at h1
    rw [hsub] at *
    simp [hle, h1, List.getD_eq_getElem]

theorem readBytes_writeBytes_disjoint (m : Mem) (waddr raddr n : Nat)
    (bs : List Nat) (h : raddr + n ≤ waddr ∨ waddr + bs.length ≤ raddr) :
    readBytes (writeBytes m waddr bs) raddr n = readBytes m raddr n := by
  apply List.ext_getElem
  · simp [readBytes]
  · intro i h1 h2
    simp only [readBytes, List.getElem_map, List.getElem_range]
    simp only [readBytes, List.length_map, List.length_range] at h1
    exact writeBytes_apply_out m waddr bs (raddr + i) (by omega)

theorem readBytes_writeBytes_eq_of_len (m : Mem) (addr n : Nat) (bs : List Nat)
    (h : n = bs.length) : readBytes (writeBytes m addr bs) addr n = bs := by
  subst h
  exact readBytes_writeBytes_self m addr bs

-- Reading the header and the data region back out of a fresh allocation.

theorem allocate_read_len (st : AllocState) (base : Nat) (b : List Nat)
    (h : b.length < 2 ^ 64) :
    bytesToUsize (readBytes (allocate_byte_array st base b).1.mem base usizeBytes) =
      b.length := by
  have hmem : (allocate_byte_array st base b).1.mem =
      writeBytes (writeBytes (writeBytes st.mem base (usizeLEBytes b.length))
        (base + usizeBytes) (usizeLEBytes (headerSize + b.length)))
        (base + headerSize) b := rfl
  rw [hmem]
  rw [readBytes_writeBytes_disjoint _ _ _ _ _
    (Or.inl (by simp only [headerSize, usizeBytes]; omega))]
  rw [readBytes_writeBytes_disjoint _ _ _ _ _ (Or.inl (Nat.le_refl _))]
  rw [readBytes_writeBytes_eq_of_len _ _ _ _ (usizeLEBytes_length _).symm]
  exact bytesToUsize_usizeLEBytes _ h

theorem allocate_read_total (st : AllocState) (base : Nat) (b : List Nat)
    (h : headerSize + b.length < 2 ^ 64) :
    bytesToUsize
      (readBytes (allocate_byte_array st base b).1.mem (base + usizeBytes) usizeBytes) =
      headerSize + b.length := by
  have hmem : (allocate_byte_array st base b).1.mem =
      writeBytes (writeBytes (writeBytes st.mem base (usizeLEBytes b.length))
        (base + usizeBytes) (usizeLEBytes (headerSize + b.length)))
        (base + headerSize) b := rfl
  rw [hmem]
  rw [readBytes_writeBytes_disjoint _ _ _ _ _
    (Or.inl (by simp only [headerSize, usizeBytes]; omega))]
  rw [readBytes_writeBytes_eq_of_len _ _ _ _ (usizeLEBytes_length _).symm]
  exact bytesToUsize_usizeLEBytes _ h

theorem allocate_read_data (st : AllocState) (base : Nat) (b : List Nat) :
    readBytes (allocate_byte_array st base b).1.mem (base + headerSize) b.length = b := by
  have hmem : (allocate_byte_array st base b).1.mem =
      writeBytes (writeBytes (writeBytes st.mem base (usizeLEBytes b.length))
        (base + usizeBytes) (usizeLEBytes (headerSize + b.length)))
        (base + headerSize) b := rfl
  rw [hmem]
  exact readBytes_writeBytes_self _ _ b

/-- C2: allocate_byte_array writes data.len() into the first header word
and header_size + data.len() into the second, copies the input bytes into
the region immediately following the header, and returns a pointer to the
first data byte; the header therefore satisfies total_size == header_size
+ len(data) and data_length == len(data).  The bound reflects that a Rust
Vec never exceeds isize::MAX bytes, so the usize stores do not wrap. -/
theorem allocate_byte_array_spec (st : AllocState) (base : Nat) (b : List Nat)
    (h : headerSize + b.length < 2 ^ 64) :
    (allocate_byte_array st base b).2 = base + headerSize ∧
    bytesToUsize (readBytes (allocate_byte_array st base b).1.mem base usizeBytes) =
      b.length ∧
    bytesToUsize
      (readBytes (allocate_byte_array st base b).1.mem (base + usizeBytes) usizeBytes) =
      headerSize + b.length ∧
    readBytes (allocate_byte_array st base b).1.mem (base + headerSize) b.length = b ∧
    (allocate_byte_array st base b).1.blocks =
      (base, headerSize + b.length) :: st.blocks :=
  ⟨rfl, allocate_read_len st base b (by omega), allocate_read_total st base b h,
    allocate_read_data st base b, rfl⟩

/-- Witness for allocate_byte_array_spec at a concrete input. -/
theorem allocate_byte_array_spec_witness :
    (allocate_byte_array allocInit 8 [7, 0, 255]).2 = 8 + headerSize ∧
    bytesToUsize (readBytes (allocate_byte_array allocInit 8 [7, 0, 255]).1.mem 8 usizeBytes) =
      3 ∧
    bytesToUsize
      (readBytes (allocate_byte_array allocInit 8 [7, 0, 255]).1.mem (8 + usizeBytes)
        usizeBytes) = headerSize + 3 ∧
    readBytes (allocate_byte_array allocInit 8 [7, 0, 255]).1.mem (8 + headerSize) 3 =
      [7, 0, 255] ∧
    (allocate_byte_array allocInit 8 [7, 0, 255]).1.blocks = [(8, headerSize + 3)] :=
  allocate_byte_array_spec allocInit 8 [7, 0, 255] (by decide)

/-- C1: for every byte sequence b, reading data_length bytes from the
pointer returned by allocate_byte_array yields exactly b, and free_bytes
on that pointer completes without error, recovering the original
allocation (base and total size) purely from the header words. -/
theorem free_bytes_allocate_roundtrip (st : AllocState) (base : Nat) (b : List Nat)
    (h : headerSize + b.length < 2 ^ 64) :
    readBytes (allocate_byte_array st base b).1.mem (allocate_byte_array st base b).2
      b.length = b ∧
    free_bytes (allocate_byte_array st base b).1 (allocate_byte_array st base b).2 =
      some ⟨(allocate_byte_array st base b).1.mem, st.blocks⟩ := by
  have h2 : (allocate_byte_array st base b).2 = base + headerSize := rfl
  have hblocks : (allocate_byte_array st base b).1.blocks =
      (base, headerSize + b.length) :: st.blocks := rfl
  refine ⟨by rw [h2]; exact allocate_read_data st base b, ?_⟩
  rw [h2]
  have hne : ¬ (base + headerSize = 0) := by simp only [headerSize, usizeBytes]; omega
  have hsub : base + headerSize - headerSize = base := by omega
  simp only [free_bytes, if_neg hne, hsub, hblocks, allocate_read_total st base b h]
  simp [removeBlock]

/-- Witness for free_bytes_allocate_roundtrip at a concrete input. -/
theorem free_bytes_allocate_roundtrip_witness :
    readBytes (allocate_byte_array allocInit 8 [0, 1, 255]).1.mem
      (allocate_byte_array allocInit 8 [0, 1, 255]).2 3 = [0, 1, 255] ∧
    free_bytes (allocate_byte_array allocInit 8 [0, 1, 255]).1
      (allocate_byte_array allocInit 8 [0, 1, 255]).2 =
      some ⟨(allocate_byte_array allocInit 8 [0, 1, 255]).1.mem, []⟩ :=
  free_bytes_allocate_roundtrip allocInit 8 [0, 1, 255] (by decide)

/-- C6: free_bytes(null) and free_string(null) are no-ops that return
immediately without modifying any state, deallocating anything, or
reporting an error, no matter how many times they are called. -/
theorem free_null_noop :
    (∀ st : AllocState, free_bytes st 0 = some st) ∧
    (∀ live : List (Nat × String), free_string live 0 = some live) ∧
    (∀ (st : AllocState) (n : Nat),
      Nat.iterate (fun s => (free_bytes s 0).getD s) n st = st) := by
  refine ⟨fun st => rfl, fun live => rfl, fun st n => ?_⟩
  induction n with
  | zero => rfl
  | succ n ih =>
    rw [Function.iterate_succ_apply]
    exact ih

/-- C8: allocating a zero-length byte sequence still allocates a valid
header-only-sized block and returns a non-null pointer, distinguishable
from the null failure sentinel. -/
theorem allocate_empty_nonnull (st : AllocState) (base : Nat) :
    (allocate_byte_array st base []).2 ≠ 0 ∧
    (allocate_byte_array st base []).1.blocks = (base, headerSize) :: st.blocks := by
  constructor
  · show base + headerSize ≠ 0
    simp only [headerSize, usizeBytes]
    omega
  · rfl

-- The error channel (error.rs): one slot per execution thread.

/-- Execution-thread identifiers for the thread_local storage model. -/
abbrev ThreadId := Nat

/-- State of the thread_local LAST_ERROR slots (error.rs lines 7-9):
one optional message string per execution thread. -/
def ErrState : Type := ThreadId → Option String

/-- Initial error state: every thread's slot is implicitly empty. -/
def errInit : ErrState := fun _ => none

/-- Model of set_error (error.rs lines 12-16): overwrite the calling
thread's slot with the message. -/
def set_error (st : ErrState) (t : ThreadId) (message : String) : ErrState :=
  fun u => if u = t then some message else st u

/-- Model of clear_error (error.rs lines 19-23): empty the calling
thread's slot. -/
def clear_error (st : ErrState) (t : ThreadId) : ErrState :=
  fun u => if u = t then none else st u

/-- Model of CString::new on a Rust String: fails exactly when the string
contains an interior NUL byte, which for UTF-8 text means a NUL char. -/
def cstringNew (s : String) : Option String :=
  if s.data.contains (Char.ofNat 0) then none else some s

/-- Model of get_last_error (error.rs lines 29-41): if the calling
thread's slot holds a message, return a freshly allocated C-string copy
of it (null when CString::new rejects it); if the slot is empty, return
null.  The slot itself is only borrowed, never modified. -/
def get_last_error (st : ErrState) (t : ThreadId) : Option String :=
  match st t with
  | some err => cstringNew err
  | none => none

theorem clear_error_idem (st : ErrState) (t : ThreadId) :
    clear_error (clear_error st t) t = clear_error st t := by
  funext u
  by_cases h : u = t <;> simp [clear_error, h]

/-- C4 counterexample: a message with an interior NUL byte is stored by
set_error, but get_last_error returns null for it (CString::new fails),
not a string equal to the message. -/
theorem get_last_error_interior_nul_cex :
    get_last_error (set_error errInit 0 (String.mk [Char.ofNat 0])) 0 = none ∧
    get_last_error (set_error errInit 0 (String.mk [Char.ofNat 0])) 0 ≠
      some (String.mk [Char.ofNat 0]) := by
  decide

/-- C4 (amended): for every message m without an interior NUL, set_error
then get_last_error on the same thread returns a string equal to m, while
the slot itself is left holding its own copy (get_last_error does not
modify the state); after clear_error, even twice in a row, get_last_error
returns null. -/
theorem error_channel_set_get_clear (st : ErrState) (t : ThreadId) (m : String)
    (h : ¬ (Char.ofNat 0) ∈ m.data) :
    get_last_error (set_error st t m) t = some m ∧
    get_last_error (clear_error st t) t = none ∧
    get_last_error (clear_error (clear_error st t) t) t = none := by
  refine ⟨?_, ?_, ?_⟩ <;> simp [get_last_error, set_error, clear_error, cstringNew, h]

/-- Witness for error_channel_set_get_clear at a concrete message. -/
theorem error_channel_set_get_clear_witness :
    get_last_error (set_error errInit 0 "boom") 0 = some "boom" ∧
    get_last_error (clear_error errInit 0) 0 = none ∧
    get_last_error (clear_error (clear_error errInit 0) 0) 0 = none :=
  error_channel_set_get_clear errInit 0 "boom" (by decide)

/-- C7: error-channel operations performed by thread B leave thread A's
slot unchanged; in particular after thread A sets a message and thread B
clears, thread A's slot still holds its message and get_last_error on A
still reflects it. -/
theorem error_channel_thread_isolation (st : ErrState) (A B : ThreadId)
    (m m2 : String) (h : A ≠ B) :
    (set_error st B m2) A = st A ∧
    (clear_error st B) A = st A ∧
    (clear_error (set_error st A m) B) A = some m ∧
    get_last_error (clear_error (set_error st A m) B) A = cstringNew m := by
  refine ⟨?_, ?_, ?_, ?_⟩ <;> simp [set_error, clear_error, get_last_error, h]

/-- Witness for error_channel_thread_isolation with the spec's scenario. -/
theorem error_channel_thread_isolation_witness :
    (set_error errInit 1 "other") 0 = errInit 0 ∧
    (clear_error errInit 1) 0 = errInit 0 ∧
    (clear_error (set_error errInit 0 "A-error") 1) 0 = some "A-error" ∧
    get_last_error (clear_error (set_error errInit 0 "A-error") 1) 0 =
      cstringNew "A-error" :=
  error_channel_thread_isolation errInit 0 1 "A-error" "other" (by decide)

-- Text codecs used by the conversion wrappers.

/-- Continuation-byte test of strict UTF-8 validation. -/
def isCont (b : Nat) : Bool := 0x80 ≤ b && b ≤ 0xBF

/-- Model of str validation and decoding as performed by
CStr::to_bytes + str::from_utf8 (strict UTF-8, rejecting overlong forms,
surrogates and out-of-range code points): none models a Utf8Error. -/
def utf8Decode : List Nat → Option (List Char)
  | [] => some []
  | b0 :: rest =>
    if b0 < 0x80 then
      (utf8Decode rest).map (fun cs => Char.ofNat b0 :: cs)
    else if 0xC2 ≤ b0 && b0 ≤ 0xDF then
      match rest with
      | b1 :: rest1 =>
        if isCont b1 then
          (utf8Decode rest1).map
            (fun cs => Char.ofNat ((b0 - 0xC0) * 0x40 + (b1 - 0x80)) :: cs)
        else none
      | [] => none
    else if 0xE0 ≤ b0 && b0 ≤ 0xEF then
      match rest with
      | b1 :: b2 :: rest2 =>
        let okB1 :=
          if b0 == 0xE0 then 0xA0 ≤ b1 && b1 ≤ 0xBF
          else if b0 == 0xED then 0x80 ≤ b1 && b1 ≤ 0x9F
          else isCont b1
        if okB1 && isCont b2 then
          (utf8Decode rest2).map (fun cs =>
            Char.ofNat ((b0 - 0xE0) * 0x1000 + (b1 - 0x80) * 0x40 + (b2 - 0x80)) :: cs)
        else none
      | _ => none
    else if 0xF0 ≤ b0 && b0 ≤ 0xF4 then
      match rest with
      | b1 :: b2 :: b3 :: rest3 =>
        let okB1 :=
          if b0 == 0xF0 then 0x90 ≤ b1 && b1 ≤ 0xBF
          else if b0 == 0xF4 then 0x80 ≤ b1 && b1 ≤ 0x8F
          else isCont b1
        if okB1 && isCont b2 && isCont b3 then
          (utf8Decode rest3).map (fun cs =>
            Char.ofNat ((b0 - 0xF0) * 0x40000 + (b1 - 0x80) * 0x1000 +
              (b2 - 0x80) * 0x40 + (b3 - 0x80)) :: cs)
        else none
      | _ => none
    else none

/-- UTF-8 bytes of one char, as produced by str::as_bytes. -/
def utf8EncodeChar (c : Char) : List Nat :=
  let v := c.toNat
  if v < 0x80 then [v]
  else if v < 0x800 then [0xC0 + v / 0x40, 0x80 + v % 0x40]
  else if v < 0x10000 then
    [0xE0 + v / 0x1000, 0x80 + v / 0x40 % 0x40, 0x80 + v % 0x40]
  else
    [0xF0 + v / 0x40000, 0x80 + v / 0x1000 % 0x40, 0x80 + v / 0x40 % 0x40,
      0x80 + v % 0x40]

/-- UTF-8 byte sequence of a string (str::as_bytes). -/
def utf8Bytes (s : String) : List Nat := s.data.flatMap utf8EncodeChar

/-- UTF-16 code units of one char (str::encode_utf16). -/
def utf16EncodeChar (c : Char) : List Nat :=
  let v := c.toNat
  if v < 0x10000 then [v]
  else [0xD800 + (v - 0x10000) / 0x400, 0xDC00 + (v - 0x10000) % 0x400]

/-- UTF-16 code units of a string (str::encode_utf16). -/
def utf16Encode (s : String) : List Nat := s.data.flatMap utf16EncodeChar

/-- ASCII uppercasing of a string; on the ASCII algorithm names compared
in compute_hash_bytes this coincides with Rust str::to_uppercase. -/
def toUpperAscii (s : String) : String := String.mk (s.data.map Char.toUpper)

/-- ASCII lowercasing of a string. -/
def toLowerAscii (s : String) : String := String.mk (s.data.map Char.toLower)

/-- Model of str::eq_ignore_ascii_case, via ASCII case folding. -/
def eqIgnoreAsciiCase (a b : String) : Bool := toLowerAscii a == toLowerAscii b

-- The url module (url.rs).

/-- The percent-encoding AsciiSet FRAGMENT built in url_encode (url.rs
lines 36-65): percent_encoding::CONTROLS (the C0 controls and DEL) plus
the ASCII bytes added one by one in the source, listed here in the same
order as the add calls. -/
def fragmentSet (b : Nat) : Bool :=
  b < 0x20 || b == 0x7F ||
    ([0x20, 0x22, 0x3C, 0x3E, 0x60, 0x23, 0x3F, 0x7B, 0x7D, 0x25, 0x2F, 0x3A,
      0x3B, 0x3D, 0x40, 0x5B, 0x5C, 0x5D, 0x5E, 0x7C, 0x26, 0x2B, 0x2C, 0x24,
      0x21, 0x27, 0x28, 0x29, 0x7E] : List Nat).contains b

/-- A byte is percent-encoded by percent_encoding::utf8_percent_encode
iff it is non-ASCII or belongs to the AsciiSet. -/
def shouldPercentEncode (b : Nat) : Bool := 0x80 ≤ b || fragmentSet b

/-- Uppercase hexadecimal digit, as used by percent-encoding. -/
def hexUpperDigit (n : Nat) : Char :=
  if n < 10 then Char.ofNat (0x30 + n) else Char.ofNat (0x37 + n)

/-- Model of percent_encoding::utf8_percent_encode on the string's UTF-8
bytes: kept bytes pass through as their ASCII chars, encoded bytes become
a percent sign followed by two uppercase hex digits. -/
def percentEncodeBytes : List Nat → List Char
  | [] => []
  | b :: rest =>
    if shouldPercentEncode b then
      Char.ofNat 0x25 :: hexUpperDigit (b / 16) :: hexUpperDigit (b % 16) ::
        percentEncodeBytes rest
    else
      Char.ofNat b :: percentEncodeBytes rest

/-- Model of url_encode (url.rs lines 20-76): a null input returns null
immediately with no other action; invalid UTF-8 sets the error and
returns null; otherwise the percent-encoded string is returned as a C
string.  The source never calls clear_error, neither at entry nor on the
success path.  After successful validation the str's UTF-8 bytes are
exactly the input bytes, so the encoder runs on them directly. -/
def url_encode (est : ErrState) (t : ThreadId) (input : Option (List Nat)) :
    Option String × ErrState :=
  match input with
  | none => (none, est)
  | some bs =>
    match utf8Decode bs with
    | none => (none, set_error est t "Invalid UTF-8 in input string")
    | some _ =>
      match cstringNew (String.mk (percentEncodeBytes bs)) with
      | some c => (some c, est)
      | none => (none, set_error est t "Failed to create C string")

-- The hash module (hash/hash_ops.rs, hash/algorithms.rs) and the
-- encoding helper it uses (base64/encoding.rs).

/-- Model of convert_string_to_bytes (base64/encoding.rs lines 4-57):
dispatch on the encoding name, ASCII-case-insensitively, producing the
byte serialization of the input string in that encoding. -/
def convert_string_to_bytes (input encoding : String) : Except String (List Nat) :=
  if eqIgnoreAsciiCase encoding "UTF8" || eqIgnoreAsciiCase encoding "UTF-8" then
    .ok (utf8Bytes input)
  else if eqIgnoreAsciiCase encoding "ASCII" then
    if input.data.all (fun c => c.toNat < 128) then .ok (utf8Bytes input)
    else .error "String contains non-ASCII characters"
  else if eqIgnoreAsciiCase encoding "UNICODE" || eqIgnoreAsciiCase encoding "UTF16" ||
      eqIgnoreAsciiCase encoding "UTF-16" then
    .ok ((utf16Encode input).flatMap (fun w => [w % 256, w / 256]))
  else if eqIgnoreAsciiCase encoding "UTF32" || eqIgnoreAsciiCase encoding "UTF-32" then
    .ok (input.data.flatMap (fun c =>
      [c.toNat % 256, c.toNat / 256 % 256, c.toNat / 65536 % 256,
        c.toNat / 16777216 % 256]))
  else if eqIgnoreAsciiCase encoding "BIGENDIANUNICODE" ||
      eqIgnoreAsciiCase encoding "UTF16BE" || eqIgnoreAsciiCase encoding "UTF-16BE" then
    .ok ((utf16Encode input).flatMap (fun w => [w / 256, w % 256]))
  else if eqIgnoreAsciiCase encoding "DEFAULT" then
    .ok (utf8Bytes input)
  else .error ("Unsupported encoding: " ++ encoding)

/-- The external digest primitives (md5, sha1, sha2 crates), as
parameters of the model: each maps the input bytes to the uppercase
hexadecimal string the source produces from the finalized digest.  They
are call-throughs to external crates, not repository code. -/
structure Digests where
  md5 : List Nat → String
  sha1 : List Nat → String
  sha256 : List Nat → String
  sha384 : List Nat → String
  sha512 : List Nat → String

/-- Model of compute_hash_bytes (hash/algorithms.rs lines 11-43):
dispatch on the uppercased algorithm name; Rust str::to_uppercase
coincides with ASCII uppercasing on every name compared here. -/
def compute_hash_bytes (dg : Digests) (bytes : List Nat) (algorithm : String) :
    Except String String :=
  let up := toUpperAscii algorithm
  if up = "MD5" then .ok (dg.md5 bytes)
  else if up = "SHA1" then .ok (dg.sha1 bytes)
  else if up = "SHA256" then .ok (dg.sha256 bytes)
  else if up = "SHA384" then .ok (dg.sha384 bytes)
  else if up = "SHA512" then .ok (dg.sha512 bytes)
  else .error ("Unsupported algorithm: " ++ algorithm ++
    ". Supported: MD5, SHA1, SHA256, SHA384, SHA512")

/-- Model of compute_hash (hash/hash_ops.rs lines 25-97): clear_error at
entry, null checks, UTF-8 validation of the three C-string arguments,
string-to-bytes conversion, digest dispatch, and a final clear_error on
the success path. -/
def compute_hash (dg : Digests) (est : ErrState) (t : ThreadId)
    (input algorithm encoding : Option (List Nat)) : Option String × ErrState :=
  let est := clear_error est t
  match input with
  | none => (none, set_error est t "Input pointer is null")
  | some inputBytes =>
    match algorithm with
    | none => (none, set_error est t "Algorithm pointer is null")
    | some algorithmBytes =>
      match encoding with
      | none => (none, set_error est t "Encoding pointer is null")
      | some encodingBytes =>
        match utf8Decode inputBytes with
        | none => (none, set_error est t "Invalid UTF-8 in input string")
        | some inputChars =>
          match utf8Decode algorithmBytes with
          | none => (none, set_error est t "Invalid UTF-8 in algorithm string")
          | some algorithmChars =>
            match utf8Decode encodingBytes with
            | none => (none, set_error est t "Invalid UTF-8 in encoding string")
            | some encodingChars =>
              match convert_string_to_bytes (String.mk inputChars)
                  (String.mk encodingChars) with
              | .error e => (none, set_error est t e)
              | .ok bytes =>
                match compute_hash_bytes dg bytes (String.mk algorithmChars) with
                | .error e => (none, set_error est t e)
                | .ok hashHex =>
                  match cstringNew hashHex with
                  | some c => (some c, clear_error est t)
                  | none =>
                    (none,
                      set_error est t "Failed to create C string from hash result")

/-- Concrete digest primitives for evaluating the model on examples. -/
def dgStub : Digests :=
  ⟨fun _ => "AA", fun _ => "AA", fun _ => "AA", fun _ => "AA", fun _ => "AA"⟩

/-- Model of bytes_to_base64 (base64/bytes_ops.rs lines 16-48): a null
pointer sets the error and returns null; a zero length returns the empty
C string, clearing the error; otherwise the slice of length bytes is
encoded by the external STANDARD engine (the parameter encode) and
returned as a C string, clearing the error on success.  The (pointer,
length) slice argument pair is modelled as the optional list of the
length bytes read from the pointer. -/
def bytes_to_base64 (encode : List Nat → String) (est : ErrState) (t : ThreadId)
    (bytes : Option (List Nat)) : Option String × ErrState :=
  match bytes with
  | none => (none, set_error est t "Byte array pointer is null")
  | some bs =>
    if bs.length = 0 then
      match cstringNew "" with
      | some c => (some c, clear_error est t)
      | none => (none, set_error est t "Failed to create empty C string")
    else
      match cstringNew (encode bs) with
      | some c => (some c, clear_error est t)
      | none => (none, set_error est t "Failed to create C string from Base64 result")

/-- C3 counterexample: a failing compute_hash (null input) sets the
thread's error slot; a subsequent successful url_encode on the same
thread returns its encoded result but leaves the stale error in place,
so get_last_error does not return null after the successful call,
refuting the claim that every operation clears on success. -/
theorem stale_error_after_url_encode_cex :
    (url_encode (compute_hash dgStub errInit 0 none none none).2 0 (some [97])).1 =
      some "a" ∧
    get_last_error
      (url_encode (compute_hash dgStub errInit 0 none none none).2 0 (some [97])).2
      0 = some "Input pointer is null" := by
  decide

/-- C3 (amended): compute_hash clears the calling thread's error slot
before attempting work (its outcome on any state equals its outcome on
the cleared state) and clears it again on its success path, so after a
successful compute_hash call get_last_error returns null on that thread;
url_encode, by contrast, never clears the slot, so the discipline does
not extend to every exported operation. -/
theorem compute_hash_clear_discipline (dg : Digests) (est : ErrState) (t : ThreadId)
    (i a e : Option (List Nat)) :
    compute_hash dg est t i a e = compute_hash dg (clear_error est t) t i a e ∧
    ∀ s, (compute_hash dg est t i a e).1 = some s →
      get_last_error (compute_hash dg est t i a e).2 t = none := by
  constructor
  · simp only [compute_hash, clear_error_idem]
  · intro s
    simp only [compute_hash]
    repeat' split
    all_goals simp [get_last_error, clear_error]

/-- Witness: after a failing call sets an error, a successful
compute_hash of "a" with MD5/UTF8 leaves get_last_error returning null
on the thread. -/
theorem compute_hash_clear_discipline_witness :
    get_last_error (compute_hash dgStub (set_error errInit 0 "previous error") 0
      (some [97]) (some [77, 68, 53]) (some [85, 84, 70, 56])).2 0 = none :=
  (compute_hash_clear_discipline dgStub (set_error errInit 0 "previous error") 0
    (some [97]) (some [77, 68, 53]) (some [85, 84, 70, 56])).2 "AA" (by decide)

/-- C5 counterexample: url_encode with a null input pointer returns the
null failure sentinel without setting the error channel: the slot is
still empty afterward and get_last_error returns null. -/
theorem url_encode_null_no_error_cex :
    (url_encode errInit 0 none).1 = none ∧
    (url_encode errInit 0 none).2 0 = none ∧
    get_last_error (url_encode errInit 0 none).2 0 = none := by
  decide

/-- C5 (amended): failing conversions funnel their diagnostic through
set_error before returning the failure sentinel, except that url_encode
returns null for a null input pointer without setting an error: for a
non-null url_encode input every failure sets the error slot, and
bytes_to_base64 sets it on every failure path including the null input
pointer. -/
theorem conversion_failure_sets_error :
    (∀ est t bs, (url_encode est t (some bs)).1 = none →
      (url_encode est t (some bs)).2 t ≠ none) ∧
    (∀ encode est t bytes, (bytes_to_base64 encode est t bytes).1 = none →
      (bytes_to_base64 encode est t bytes).2 t ≠ none) := by
  constructor
  · intro est t bs hfail
    simp only [url_encode] at hfail ⊢
    cases hdec : utf8Decode bs with
    | none => simp [hdec, set_error]
    | some cs =>
      simp only [hdec] at hfail ⊢
      cases hcs : cstringNew (String.mk (percentEncodeBytes bs)) with
      | some c => simp [hcs] at hfail
      | none => simp [hcs, set_error]
  · intro encode est t bytes hfail
    cases bytes with
    | none =>
      simp only [bytes_to_base64] at hfail ⊢
      simp [set_error]
    | some bs =>
      simp only [bytes_to_base64] at hfail ⊢
      by_cases hlen : bs.length = 0
      · simp only [if_pos hlen] at hfail ⊢
        cases hcs : cstringNew "" with
        | some c => simp [hcs] at hfail
        | none => simp [hcs, set_error]
      · simp only [if_neg hlen] at hfail ⊢
        cases hcs : cstringNew (encode bs) with
        | some c => simp [hcs] at hfail
        | none => simp [hcs, set_error]

/-- Witness: bytes_to_base64 with a null pointer fails with the error
slot set. -/
theorem conversion_failure_sets_error_witness :
    (bytes_to_base64 (fun _ => "") errInit 0 none).1 = none ∧
    (bytes_to_base64 (fun _ => "") errInit 0 none).2 0 ≠ none :=
  ⟨rfl, conversion_failure_sets_error.2 (fun _ => "") errInit 0 none rfl⟩

/-- Model of string_to_bytes_copy (memory.rs lines 24-43): if the string
pointer or the out_length pointer is null, return null immediately;
otherwise the CStr's UTF-8 bytes without the terminator are counted into
out_length and copied into a fresh header-allocated byte array.  The
result triple is (allocator state, returned pointer, value written
through out_length). -/
def string_to_bytes_copy (ast : AllocState) (base : Nat)
    (ptr : Option (List Nat)) (outNull : Bool) :
    AllocState × Option Nat × Option Nat :=
  match ptr, outNull with
  | none, _ => (ast, none, none)
  | some _, true => (ast, none, none)
  | some bytes, false =>
    ((allocate_byte_array ast base bytes).1,
      some (allocate_byte_array ast base bytes).2, some bytes.length)

/-- C9: string_to_bytes_copy returns null exactly when its input string
pointer or its out_length pointer is null; otherwise it writes the byte
length of the C string (excluding the NUL terminator) through out_length
and returns a header-allocated byte array whose contents equal the
string's UTF-8 bytes without the terminator. -/
theorem string_to_bytes_copy_spec (ast : AllocState) (base : Nat)
    (ptr : Option (List Nat)) (outNull : Bool) :
    ((string_to_bytes_copy ast base ptr outNull).2.1 = none ↔
      ptr = none ∨ outNull = true) ∧
    (∀ bytes, ptr = some bytes → outNull = false →
      (string_to_bytes_copy ast base ptr outNull).2.2 = some bytes.length ∧
      (string_to_bytes_copy ast base ptr outNull).2.1 = some (base + headerSize) ∧
      readBytes (string_to_bytes_copy ast base ptr outNull).1.mem
        (base + headerSize) bytes.length = bytes ∧
      (string_to_bytes_copy ast base ptr outNull).1.blocks =
        (base, headerSize + bytes.length) :: ast.blocks) := by
  cases ptr with
  | none => simp [string_to_bytes_copy]
  | some bs =>
    cases outNull with
    | true => simp [string_to_bytes_copy]
    | false =>
      refine ⟨by simp [string_to_bytes_copy], ?_⟩
      intro bytes hb _hf
      cases hb
      exact ⟨rfl, rfl, allocate_read_data ast base bs, rfl⟩

/-- Witness for string_to_bytes_copy_spec at a concrete C string. -/
theorem string_to_bytes_copy_spec_witness :
    (string_to_bytes_copy allocInit 8 (some [104, 105]) false).2.2 = some 2 ∧
    (string_to_bytes_copy allocInit 8 (some [104, 105]) false).2.1 =
      some (8 + headerSize) ∧
    readBytes (string_to_bytes_copy allocInit 8 (some [104, 105]) false).1.mem
      (8 + headerSize) 2 = [104, 105] ∧
    (string_to_bytes_copy allocInit 8 (some [104, 105]) false).1.blocks =
      [(8, headerSize + 2)] :=
  (string_to_bytes_copy_spec allocInit 8 (some [104, 105]) false).2
    [104, 105] rfl rfl

/-- Model of base64_to_bytes (base64/bytes_ops.rs lines 59-105): the
external STANDARD engine's decode is the parameter decode; the out_length
out-parameter is modelled as outNull (whether the pointer is null)
together with the returned written value (none when nothing was written).
The result is (returned pointer, out_length written, error state,
allocator state). -/
def base64_to_bytes (decode : String → Except String (List Nat))
    (est : ErrState) (t : ThreadId) (ast : AllocState) (base : Nat)
    (input : Option (List Nat)) (outNull : Bool) :
    Option Nat × Option Nat × ErrState × AllocState :=
  match input with
  | none =>
    (none, if outNull then none else some 0,
      set_error est t "Input pointer is null", ast)
  | some bs =>
    match utf8Decode bs with
    | none =>
      (none, if outNull then none else some 0,
        set_error est t "Invalid UTF-8 in input string", ast)
    | some chars =>
      if (String.mk chars).data.isEmpty then
        (some (allocate_byte_array ast base []).2,
          if outNull then none else some 0, clear_error est t,
          (allocate_byte_array ast base []).1)
      else
        match decode (String.mk chars) with
        | .error e =>
          (none, if outNull then none else some 0,
            set_error est t ("Failed to decode Base64: " ++ e), ast)
        | .ok decoded =>
          (some (allocate_byte_array ast base decoded).2,
            if outNull then none else some decoded.length, clear_error est t,
            (allocate_byte_array ast base decoded).1)

/-- Model of compress_string (compression/compress.rs lines 23-120): the
external gzip encoder (flate2) appears as its two fallible steps, the
parameters gzWriteAll and gzFinish.  The result is (returned pointer,
out_length written, error state, allocator state). -/
def compress_string (gzWriteAll : List Nat → Except String Unit)
    (gzFinish : List Nat → Except String (List Nat))
    (est : ErrState) (t : ThreadId) (ast : AllocState) (base : Nat)
    (input encoding : Option (List Nat)) (outNull : Bool) :
    Option Nat × Option Nat × ErrState × AllocState :=
  match input with
  | none =>
    (none, if outNull then none else some 0,
      set_error est t "Input pointer is null", ast)
  | some ib =>
    match encoding with
    | none =>
      (none, if outNull then none else some 0,
        set_error est t "Encoding pointer is null", ast)
    | some eb =>
      match utf8Decode ib with
      | none =>
        (none, if outNull then none else some 0,
          set_error est t "Invalid UTF-8 in input string", ast)
      | some ichars =>
        match utf8Decode eb with
        | none =>
          (none, if outNull then none else some 0,
            set_error est t "Invalid UTF-8 in encoding string", ast)
        | some echars =>
          match convert_string_to_bytes (String.mk ichars) (String.mk echars) with
          | .error e =>
            (none, if outNull then none else some 0, set_error est t e, ast)
          | .ok bytes =>
            match gzWriteAll bytes with
            | .error e =>
              (none, if outNull then none else some 0,
                set_error est t ("Compression write failed: " ++ e), ast)
            | .ok _ =>
              match gzFinish bytes with
              | .error e =>
                (none, if outNull then none else some 0,
                  set_error est t ("Compression finish failed: " ++ e), ast)
              | .ok compressed =>
                (some (allocate_byte_array ast base compressed).2,
                  if outNull then none else some compressed.length,
                  clear_error est t, (allocate_byte_array ast base compressed).1)

/-- C10: on every failure path of base64_to_bytes and compress_string,
when the out_length out-parameter is non-null it is set to 0 before the
null sentinel is returned, so a null result is always accompanied by a
reported length of zero. -/
theorem failure_reports_zero_length :
    (∀ decode est t ast base input,
      (base64_to_bytes decode est t ast base input false).1 = none →
      (base64_to_bytes decode est t ast base input false).2.1 = some 0) ∧
    (∀ gw gf est t ast base input encoding,
      (compress_string gw gf est t ast base input encoding false).1 = none →
      (compress_string gw gf est t ast base input encoding false).2.1 = some 0) := by
  constructor
  · intro decode est t ast base input hfail
    simp only [base64_to_bytes] at hfail ⊢
    repeat' split
    all_goals simp_all
  · intro gw gf est t ast base input encoding hfail
    simp only [compress_string] at hfail ⊢
    repeat' split
    all_goals simp_all

/-- Witness: base64_to_bytes on a decode failure reports length 0, and
compress_string on a null input reports length 0. -/
theorem failure_reports_zero_length_witness :
    (base64_to_bytes (fun _ => Except.error "bad") errInit 0 allocInit 8
      (some [97]) false).2.1 = some 0 ∧
    (compress_string (fun _ => Except.ok ()) (fun _ => Except.ok [])
      errInit 0 allocInit 8 none none false).2.1 = some 0 :=
  ⟨failure_reports_zero_length.1 (fun _ => Except.error "bad") errInit 0 allocInit 8
      (some [97]) (by decide),
    failure_reports_zero_length.2 (fun _ => Except.ok ()) (fun _ => Except.ok [])
      errInit 0 allocInit 8 none none rfl⟩
